import Mathlib

deriving instance DecidableEq for Except

/-!
Shallow embedding of the contact-book program (files `task1.py` and
`task2.py`; the two files duplicate the same core classes, embedded once
here).  Python dates are modelled by a plain year/month/day structure over
the proleptic Gregorian calendar, which is exactly the calendar of
`datetime.date`; mutation of records and of the address book is modelled
by explicit state passing, and Python exceptions by `Except`.
-/

namespace ContactBook

/-! ## Calendar arithmetic (the fragment of `datetime.date` the program uses) -/

/-- Gregorian leap-year rule, as in `calendar.isleap` / `datetime`. -/
def isLeap (y : Nat) : Bool :=
  y % 4 == 0 && (y % 100 != 0 || y % 400 == 0)

/-- Number of days in month `m` (1–12) of year `y`. -/
def daysInMonth (y m : Nat) : Nat :=
  if m = 2 then (if isLeap y then 29 else 28)
  else if m = 4 ∨ m = 6 ∨ m = 9 ∨ m = 11 then 30
  else 31

/-- A calendar date, as `datetime.date`: year, month, day.
`datetime.date` only admits years 1–9999 and valid month/day combinations;
those constraints are enforced by `validYMD` at each construction site,
exactly where CPython enforces them. -/
structure Date where
  year : Nat
  month : Nat
  day : Nat
  deriving DecidableEq, Repr

/-- Validity of a year/month/day triple, as checked by the `datetime.date`
constructor (`MINYEAR = 1`, `MAXYEAR = 9999`). -/
def validYMD (y m d : Nat) : Bool :=
  1 ≤ y && y ≤ 9999 && 1 ≤ m && m ≤ 12 && 1 ≤ d && d ≤ daysInMonth y m

/-- Days in year `y` strictly before month `m` (so 0 for January). -/
def daysBeforeMonth (y : Nat) : Nat → Nat
  | 0 => 0
  | 1 => 0
  | m + 2 => daysBeforeMonth y (m + 1) + daysInMonth y (m + 1)

/-- Rata-die ordinal of a date: `0001-01-01` is day 1.  This is exactly
`datetime.date.toordinal`, the quantity CPython subtracts to form
`(d1 - d2).days`. -/
def toOrdinal (d : Date) : Nat :=
  let p := d.year - 1
  365 * p + p / 4 + p / 400 - p / 100 + daysBeforeMonth d.year d.month + d.day

/-- Difference in days between two dates, as `(a - b).days` on
`datetime.date` values. -/
def dateDiff (a b : Date) : Int :=
  (toOrdinal a : Int) - (toOrdinal b : Int)

/-- `date.weekday()`: 0 = Monday … 6 = Sunday.  `0001-01-01` has ordinal 1
and is a Monday, hence the shift. -/
def weekday (d : Date) : Nat :=
  (toOrdinal d + 6) % 7

/-- `calendar.day_name`, indexed by `weekday`. -/
def day_name : List String :=
  ["Monday", "Tuesday", "Wednesday", "Thursday", "Friday", "Saturday", "Sunday"]

/-- `calendar.day_name[d.weekday()]`. -/
def dayNameOf (d : Date) : String :=
  day_name.getD (weekday d) ""

/-- `d.replace(year = y)`: keeps month and day, replaces the year, and
re-validates like the `datetime.date` constructor; CPython raises
`ValueError` when the resulting triple is invalid (notably Feb 29 mapped
into a non-leap year, message "day is out of range for month") or when the
year leaves 1–9999. -/
def replace_year (d : Date) (y : Nat) : Except String Date :=
  if y < 1 ∨ 9999 < y then
    .error ("year " ++ toString y ++ " is out of range")
  else if validYMD y d.month d.day then
    .ok ⟨y, d.month, d.day⟩
  else
    .error "day is out of range for month"

/-! ## Phone validation (`Phone.__init__`) -/

/-- Embeds `re.match(r"^\d{10}$", value)`.  In Python, `^` anchors at the
start, `\d{10}` consumes ten digit characters, and `$` matches either at
the very end of the string or just before a newline that is the last
character — so the pattern also accepts ten digits followed by one
trailing `'\n'`.  Python's `\d` additionally matches non-ASCII decimal
digits; this embedding restricts to ASCII digits, a restriction under
which the pattern and the specification's "decimal digit" coincide, so no
claim's truth value depends on it. -/
def phone_pattern (s : String) : Bool :=
  let cs := s.data
  (cs.length == 10 && cs.all Char.isDigit) ||
  (cs.length == 11 && (cs.take 10).all Char.isDigit && cs.drop 10 == ['\n'])

/-- `Phone(value)`: validates against the pattern and stores the string
unchanged (no normalization); raises `ValueError` otherwise. -/
def Phone.make (s : String) : Except String String :=
  if phone_pattern s then .ok s else .error "Phone number must be 10 digits."

/-! ## Record -/

/-- A `Record`: validated-on-entry name wrapper elided (a `Name` is just a
held string), ordered list of phone strings (each a validated `Phone`
value), optional birthday.  The `Birthday` wrapper's `isinstance` check is
subsumed by the `Date` type. -/
structure Record where
  name : String
  phones : List String
  birthday : Option Date
  deriving DecidableEq, Repr

/-- `Record(name)`, with no birthday argument. -/
def Record.make (name : String) : Record :=
  ⟨name, [], none⟩

/-- `add_phone`: validates and appends; on `ValueError` the record is
unchanged (the append never happened). -/
def Record.add_phone (r : Record) (s : String) : Except String Record :=
  match Phone.make s with
  | .ok p => .ok { r with phones := r.phones ++ [p] }
  | .error e => .error e

/-- Removal of the first list element equal to `p`, which is what the
search-then-`list.remove` in `remove_phone` amounts to. -/
def removeFirst : List String → String → List String
  | [], _ => []
  | x :: t, p => if x = p then t else x :: removeFirst t p

/-- `remove_phone`: removes the first phone equal to `p`, no-op if absent. -/
def Record.remove_phone (r : Record) (p : String) : Record :=
  { r with phones := removeFirst r.phones p }

/-- `edit_phone`: removes `old` and then adds `new`.  When `new` fails
validation the `ValueError` escapes with the removal already applied, so
the error case carries the record state observable after the call:
`(message, record with old removed)`. -/
def Record.edit_phone (r : Record) (o n : String) : Except (String × Record) Record :=
  let r1 := r.remove_phone o
  match r1.add_phone n with
  | .ok r2 => .ok r2
  | .error e => .error (e, r1)

/-- `find_phone`: first phone equal to `p`, else `None`. -/
def Record.find_phone (r : Record) (p : String) : Option String :=
  match r.phones.find? (fun x => x = p) with
  | some x => some x
  | none => none

/-- `add_birthday` (and the `Record` constructor's birthday argument):
replaces any existing birthday. -/
def Record.add_birthday (r : Record) (b : Date) : Record :=
  { r with birthday := some b }

/-! ## AddressBook -/

/-- Python `dict` assignment `data[k] = v` on an association list kept in
insertion order: overwrite in place if the key exists, else append. -/
def dictInsert : List (String × Record) → String → Record → List (String × Record)
  | [], k, v => [(k, v)]
  | (k', v') :: t, k, v =>
      if k' = k then (k', v) :: t else (k', v') :: dictInsert t k v

/-- Python `dict.get k`: first (in a real dict: only) entry with key `k`. -/
def dictGet : List (String × Record) → String → Option Record
  | [], _ => none
  | (k', v) :: t, k => if k' = k then some v else dictGet t k

/-- Python `del data[k]`: drops the (first) entry with key `k`. -/
def dictDel : List (String × Record) → String → List (String × Record)
  | [], _ => []
  | (k', v) :: t, k => if k' = k then t else (k', v) :: dictDel t k

/-- `AddressBook(UserDict)`: its `data` dict, as an insertion-ordered
association list (Python dicts preserve insertion order; overwriting keeps
the original position). -/
structure AddressBook where
  data : List (String × Record)
  deriving DecidableEq, Repr

/-- `add_record`: `self.data[record.name.value] = record`. -/
def AddressBook.add_record (bk : AddressBook) (r : Record) : AddressBook :=
  ⟨dictInsert bk.data r.name r⟩

/-- `find`: `self.data.get(name)`. -/
def AddressBook.find (bk : AddressBook) (n : String) : Option Record :=
  dictGet bk.data n

/-- `delete`: `if name in self.data: del self.data[name]`. -/
def AddressBook.delete (bk : AddressBook) (n : String) : AddressBook :=
  if bk.data.any (fun p => p.1 = n) then ⟨dictDel bk.data n⟩ else bk

/-! ## `get_birthdays_per_week`

The method reads the clock (`datetime.now().date()`); that environment
input becomes the explicit `today` parameter.  The `defaultdict(list)`
accumulator becomes an insertion-ordered association list of
weekday-label/name-list pairs; exceptions raised by `date.replace` become
`Except.error` and abort the traversal, as propagation does in Python. -/

/-- `birthdays[k].append(v)` on a `defaultdict(list)`: appends to the list
at `k`, creating the key at the end in insertion order if absent. -/
def addEntry : List (String × List String) → String → String → List (String × List String)
  | [], k, v => [(k, [v])]
  | (k', vs) :: t, k, v =>
      if k' = k then (k', vs ++ [v]) :: t else (k', vs) :: addEntry t k v

/-- Reading `m[k]` of the accumulated mapping: the list at key `k`
(empty when the key is absent). -/
def lookupEntry : List (String × List String) → String → List String
  | [], _ => []
  | (k', vs) :: t, k => if k' = k then vs else lookupEntry t k

/-- Lines 84–89 of `task1.py`: the (possibly year-adjusted) occurrence of
birthday `b` relative to `today`, together with its `delta_days`.  The
second `replace` acts on `birthday_this_year` (not on `b`), exactly as in
the source. -/
def occurrence (today b : Date) : Except String (Date × Int) :=
  match replace_year b today.year with
  | .error e => .error e
  | .ok d1 =>
      if dateDiff d1 today < 0 then
        match replace_year d1 (today.year + 1) with
        | .error e => .error e
        | .ok d2 => .ok (d2, dateDiff d2 today)
      else
        .ok (d1, dateDiff d1 today)

/-- Lines 91–95: the weekday label, with Saturday/Sunday relabelled
Monday. -/
def dayLabel (d : Date) : String :=
  let n := dayNameOf d
  if n = "Saturday" ∨ n = "Sunday" then "Monday" else n

/-- One iteration of the `for record in self.data.values()` loop.  The
body only reads the record, so it is returned alongside the updated
accumulator; an exception aborts with `Except.error`. -/
def gbwStep (today : Date) (r : Record) (m : List (String × List String)) :
    Except String (Record × List (String × List String)) :=
  match r.birthday with
  | none => .ok (r, m)
  | some b =>
      match occurrence today b with
      | .error e => .error e
      | .ok (d, δ) =>
          if 0 ≤ δ ∧ δ < 7 then .ok (r, addEntry m (dayLabel d) r.name)
          else .ok (r, m)

/-- The whole loop, threading both the book's entry list and the
accumulator; an exception propagates immediately. -/
def gbwLoop (today : Date) :
    List (String × Record) → List (String × List String) →
    Except String (List (String × Record) × List (String × List String))
  | [], m => .ok ([], m)
  | (k, r) :: t, m =>
      match gbwStep today r m with
      | .error e => .error e
      | .ok (r1, m2) =>
          match gbwLoop today t m2 with
          | .error e => .error e
          | .ok (t1, m3) => .ok ((k, r1) :: t1, m3)

/-- `get_birthdays_per_week`, with the clock reading as parameter: returns
the post-call book state and either the accumulated mapping or the escaped
exception's message (nothing was written before an exception, so the book
is returned as it was). -/
def AddressBook.get_birthdays_per_week (bk : AddressBook) (today : Date) :
    AddressBook × Except String (List (String × List String)) :=
  match gbwLoop today bk.data [] with
  | .ok (data', m) => (⟨data'⟩, .ok m)
  | .error e => (bk, .error e)

/-! ## The command layer (`task2.py`)

Each handler is wrapped by the `input_error` decorator, which turns a
raised `ValueError` (the only exception kind these handlers raise) into
the string `"Error: " ++ message`; so a handler embeds as a total function
from arguments and book state to the printed string and the new book
state.  Python mutates the found `Record` in place through the alias held
by the dict; that aliasing is rendered by writing the mutated record back
at its key with `dictInsert` (which keeps the entry's position). -/

/-- Zero-padded two-digit rendering (`%d`, `%m`). -/
def pad2 (n : Nat) : String :=
  if n < 10 then "0" ++ toString n else toString n

/-- Zero-padded four-digit rendering (`%Y`). -/
def pad4 (n : Nat) : String :=
  if n < 10 then "000" ++ toString n
  else if n < 100 then "00" ++ toString n
  else if n < 1000 then "0" ++ toString n
  else toString n

/-- `strftime("%Y-%m-%d")`. -/
def strftime_ymd (d : Date) : String :=
  pad4 d.year ++ "-" ++ pad2 d.month ++ "-" ++ pad2 d.day

/-- `strftime("%d.%m.%Y")`. -/
def strftime_dmy (d : Date) : String :=
  pad2 d.day ++ "." ++ pad2 d.month ++ "." ++ pad4 d.year

/-- `Record.__str__`. -/
def Record.describe (r : Record) : String :=
  "Contact name: " ++ r.name ++ ", phones: " ++ String.intercalate ", " r.phones ++
    (match r.birthday with
     | some b => ", birthday: " ++ strftime_ymd b
     | none => "")

/-- `datetime.strptime(s, "%d.%m.%Y")` as `add_birthday` uses it: three
dot-separated all-digit components, day and month of one or two digits,
a four-digit year, and the assembled triple must be a valid date; any
failure is the `ValueError` the handler catches (the particular message
never surfaces, the handler replaces it with a fixed string). -/
def strptime_dmy (s : String) : Except String Date :=
  match s.splitOn "." with
  | [ds, ms, ys] =>
      if 1 ≤ ds.length && ds.length ≤ 2 && ds.data.all Char.isDigit &&
         1 ≤ ms.length && ms.length ≤ 2 && ms.data.all Char.isDigit &&
         ys.length == 4 && ys.data.all Char.isDigit then
        let dd := (ds.toNat?).getD 0
        let mm := (ms.toNat?).getD 0
        let yy := (ys.toNat?).getD 0
        if validYMD yy mm dd then .ok ⟨yy, mm, dd⟩
        else .error "day is out of range for month"
      else .error "time data does not match format"
  | _ => .error "time data does not match format"

/-- `add_contact` under `input_error`.  Python lower-cases only ASCII
letters differently from Lean on some Unicode; the commands' claims do not
depend on that fringe, and `String.toLower` matches `str.lower` on
ASCII. -/
def add_contact (args : List String) (bk : AddressBook) : String × AddressBook :=
  match args with
  | [name, phone] =>
      let r := Record.make name.toLower
      match r.add_phone phone with
      | .ok r1 => ("Contact added.", bk.add_record r1)
      | .error e => ("Error: " ++ e, bk)
  | _ => ("Error: Invalid input. Please provide both name and phone number.", bk)

/-- `change_phone` under `input_error`.  With an empty phone list Python
passes `old_phone = None`, which matches no stored phone; the embedding
passes `""`, which no validated phone equals either, giving the same
removal behaviour. -/
def change_phone (args : List String) (bk : AddressBook) : String × AddressBook :=
  match args with
  | [name, new_phone] =>
      let lname := name.toLower
      match bk.find lname with
      | some r =>
          let old := match r.phones with
                     | p :: _ => p
                     | [] => ""
          match r.edit_phone old new_phone with
          | .ok r1 => ("Contact for " ++ name ++ " updated.", ⟨dictInsert bk.data lname r1⟩)
          | .error (e, rerr) => ("Error: " ++ e, ⟨dictInsert bk.data lname rerr⟩)
      | none => ("Contact not found.", bk)
  | _ => ("Error: Invalid input. Please provide both name and phone number.", bk)

/-- `get_phone` under `input_error`. -/
def get_phone (args : List String) (bk : AddressBook) : String × AddressBook :=
  match args with
  | [] => ("Error: Please provide a contact name.", bk)
  | name :: _ =>
      match bk.find name.toLower with
      | some r =>
          match r.phones with
          | p :: _ => (p, bk)
          | [] => ("Contact not found.", bk)
      | none => ("Contact not found.", bk)

/-- `show_all_contacts` under `input_error`. -/
def show_all_contacts (bk : AddressBook) : String × AddressBook :=
  if bk.data.isEmpty then ("No contacts saved.", bk)
  else (String.intercalate "\n" (bk.data.map (fun p => p.2.describe)), bk)

/-- The `add_birthday` command handler under `input_error` (distinct from
`Record.add_birthday`, as in the source). -/
def add_birthday (args : List String) (bk : AddressBook) : String × AddressBook :=
  match args with
  | [name, bstr] =>
      let lname := name.toLower
      match bk.find lname with
      | none => ("Contact not found.", bk)
      | some r =>
          match strptime_dmy bstr with
          | .ok b => ("Birthday added.", ⟨dictInsert bk.data lname (r.add_birthday b)⟩)
          | .error _ => ("Invalid date format. Use DD.MM.YYYY.", bk)
  | _ => ("Error: Please provide both the contact name and birthday in the format \x27DD.MM.YYYY\x27.", bk)

/-- `show_birthday` under `input_error`. -/
def show_birthday (args : List String) (bk : AddressBook) : String × AddressBook :=
  match args with
  | [] => ("Error: Please provide a contact name.", bk)
  | name :: _ =>
      match bk.find name.toLower with
      | some r =>
          match r.birthday with
          | some b => (strftime_dmy b, bk)
          | none => ("Birthday not found for this contact.", bk)
      | none => ("Birthday not found for this contact.", bk)

/-- Outcome of one iteration of `main`'s read loop on a parsed command:
lines printed and the loop continues, the `"Good bye!"` exit, or an
exception escaping the loop (which in Python aborts the process). -/
inductive StepOut where
  | printed : List String → StepOut
  | exited : StepOut
  | crashed : String → StepOut
  deriving DecidableEq, Repr

/-- Whether the loop iteration ended in an escaped exception. -/
def isCrash : StepOut → Bool
  | .crashed _ => true
  | _ => false

/-- The dispatch chain of `main` (lines 196–221 of `task2.py`) on one
already-parsed command.  Every handler call is `input_error`-wrapped, but
the `birthdays` branch calls `get_birthdays_per_week` directly with no
handler and no `try`, so an exception raised there escapes the loop. -/
def dispatch (cmd : String) (args : List String) (bk : AddressBook) (today : Date) :
    StepOut × AddressBook :=
  if cmd = "close" ∨ cmd = "exit" then (.exited, bk)
  else if cmd = "hello" then (.printed ["How can I help you?"], bk)
  else if cmd = "add" then
    let r := add_contact args bk
    (.printed [r.1], r.2)
  else if cmd = "change" then
    let r := change_phone args bk
    (.printed [r.1], r.2)
  else if cmd = "phone" then
    let r := get_phone args bk
    (.printed [r.1], r.2)
  else if cmd = "all" then
    let r := show_all_contacts bk
    (.printed [r.1], r.2)
  else if cmd = "add-birthday" then
    let r := add_birthday args bk
    (.printed [r.1], r.2)
  else if cmd = "show-birthday" then
    let r := show_birthday args bk
    (.printed [r.1], r.2)
  else if cmd = "birthdays" then
    match bk.get_birthdays_per_week today with
    | (bk1, .ok m) =>
        if m.isEmpty then (.printed ["No birthdays next week."], bk1)
        else (.printed (m.map (fun p => p.1 ++ ": " ++ String.intercalate ", " p.2)), bk1)
    | (bk1, .error e) => (.crashed e, bk1)
  else (.printed ["Invalid command."], bk)

/-! ## The specification side, for the refinement claim on phone syntax -/

/-- Modelled from the spec: "**PhoneNumber**: string of exactly 10 decimal
digits", written from the specification's words for comparison with the
code's pattern. -/
def specTenDigits (s : String) : Prop :=
  s.data.length = 10 ∧ ∀ c ∈ s.data, c.isDigit

/-! # Theorems -/

/-- Calendar sanity anchors: 2024-06-10 was a Monday, 2024-06-15 a
Saturday, 2024-12-31 a Tuesday, 2025-01-02 a Thursday. -/
theorem weekday_anchors :
    weekday ⟨2024, 6, 10⟩ = 0 ∧ weekday ⟨2024, 6, 15⟩ = 5 ∧
    weekday ⟨2024, 12, 31⟩ = 1 ∧ weekday ⟨2025, 1, 2⟩ = 3 := by
  decide

/-! ### C4: phone construction -/

/-- `Phone` construction succeeds exactly when the embedded pattern
matches. -/
theorem make_ok_iff (s : String) :
    (∃ p, Phone.make s = .ok p) ↔ phone_pattern s = true := by
  unfold Phone.make
  by_cases h : phone_pattern s = true <;> simp [h]

/-- Characterization of the pattern as a predicate on the character
list. -/
theorem pattern_iff (s : String) :
    phone_pattern s = true ↔
      (s.data.length = 10 ∧ ∀ c ∈ s.data, c.isDigit) ∨
      (s.data.length = 11 ∧ (∀ c ∈ s.data.take 10, c.isDigit) ∧ s.data.drop 10 = ['\n']) := by
  unfold phone_pattern
  simp [List.all_eq_true]
  tauto

/-- C4, counterexample: the claim asserts construction fails for any
string that is not exactly 10 decimal digits, but `re.match(r"^\d{10}$", s)`
also matches when `$` sits before a final newline: the 11-character string
of ten digits followed by a newline is accepted, and stored unchanged. -/
theorem C4_counterexample :
    Phone.make "1234567890\n" = .ok "1234567890\n" ∧
    "1234567890\n".data.length = 11 ∧
    "1234567890\n".data.all Char.isDigit = false := by
  decide

/-- C4 as amended: construction never normalizes (it returns the input
string itself or the validation error), and it succeeds exactly on
strings of ten decimal digits or of ten decimal digits followed by one
trailing newline. -/
theorem C4_phone_construction (s : String) :
    (Phone.make s = .ok s ∨ Phone.make s = .error "Phone number must be 10 digits.") ∧
    ((∃ p, Phone.make s = .ok p) ↔
      specTenDigits s ∨
      (s.data.length = 11 ∧ (∀ c ∈ s.data.take 10, c.isDigit) ∧ s.data.drop 10 = ['\n'])) := by
  constructor
  · unfold Phone.make
    by_cases h : phone_pattern s = true <;> simp [h]
  · rw [make_ok_iff, pattern_iff]
    unfold specTenDigits
    exact Iff.rfl

/-! ### C5, C6: `edit_phone` -/

/-- Removing the first occurrence lowers the occurrence count by one
(truncated at zero when the element is absent). -/
theorem count_removeFirst (l : List String) (p : String) :
    (removeFirst l p).count p = l.count p - 1 := by
  induction l with
  | nil => rfl
  | cons x t ih =>
      by_cases h : x = p
      · simp [removeFirst, h, List.count_cons]
      · simp [removeFirst, h, List.count_cons, ih, Ne.symm h]

/-- An element occurring at most once does not survive the removal of its
first occurrence. -/
theorem not_mem_removeFirst (l : List String) (p : String) (h : l.count p ≤ 1) :
    p ∉ removeFirst l p := by
  have hc := count_removeFirst l p
  have hz : (removeFirst l p).count p = 0 := by omega
  exact List.count_eq_zero.mp hz

/-- The first-match search underlying `find_phone`. -/
theorem findFirst_eq (l : List String) (p : String) :
    l.find? (fun x => x = p) = if p ∈ l then some p else none := by
  induction l with
  | nil => rfl
  | cons x t ih =>
      by_cases h : x = p
      · simp [List.find?_cons, h]
      · simp [List.find?_cons, h, ih, Ne.symm h]

/-- `find_phone` returns the sought value exactly when some phone equals
it. -/
theorem find_phone_eq (r : Record) (p : String) :
    r.find_phone p = if p ∈ r.phones then some p else none := by
  unfold Record.find_phone
  rw [findFirst_eq]
  by_cases h : p ∈ r.phones <;> simp [h]

/-- C5, counterexample: the claim asserts that after a failed
`edit_phone(old, new)` the phone list no longer contains `old`, for every
record containing `old`; but only the first occurrence is removed, so a
record listing `old` twice still contains it.  Here the post-error record
is `⟨"a", ["0123456789"], none⟩`, whose phone list still holds the old
number. -/
theorem C5_counterexample :
    Record.edit_phone ⟨"a", ["0123456789", "0123456789"], none⟩ "0123456789" "bad" =
      .error ("Phone number must be 10 digits.", ⟨"a", ["0123456789"], none⟩) ∧
    "0123456789" ∈ (Record.mk "a" ["0123456789"] none).phones := by
  decide

/-- C5 as amended: if the record contains `old` and `new` fails phone
validation, `edit_phone` raises the validation error with the removal
already applied — the observable record has one fewer occurrence of
`old`, and none left when `old` occurred exactly once. -/
theorem C5_edit_phone_invalid (r : Record) (o n : String)
    (ho : o ∈ r.phones) (hn : phone_pattern n = false) :
    Record.edit_phone r o n =
      .error ("Phone number must be 10 digits.", r.remove_phone o) ∧
    (r.remove_phone o).phones.count o + 1 = r.phones.count o ∧
    (r.phones.count o = 1 → o ∉ (r.remove_phone o).phones) := by
  refine ⟨?_, ?_, ?_⟩
  · unfold Record.edit_phone Record.add_phone Phone.make
    simp [hn]
  · have hc := count_removeFirst r.phones o
    have hpos : 0 < r.phones.count o := List.count_pos_iff.mpr ho
    simp only [Record.remove_phone]
    omega
  · intro h1
    simp only [Record.remove_phone]
    exact not_mem_removeFirst r.phones o (by omega)

/-- C5 witness: a concrete record with exactly one copy of the old
number and an invalid replacement. -/
theorem C5_witness :
    Record.edit_phone ⟨"a", ["0123456789"], none⟩ "0123456789" "x" =
      .error ("Phone number must be 10 digits.",
        Record.remove_phone ⟨"a", ["0123456789"], none⟩ "0123456789") ∧
    (Record.remove_phone ⟨"a", ["0123456789"], none⟩ "0123456789").phones.count "0123456789" + 1 =
      (Record.mk "a" ["0123456789"] none).phones.count "0123456789" ∧
    ((Record.mk "a" ["0123456789"] none).phones.count "0123456789" = 1 →
      "0123456789" ∉ (Record.remove_phone ⟨"a", ["0123456789"], none⟩ "0123456789").phones) :=
  C5_edit_phone_invalid ⟨"a", ["0123456789"], none⟩ "0123456789" "x" (by decide) (by decide)

/-- C6, counterexample: with `new = old` (a valid number) on a record
holding that number once, `edit_phone` succeeds but `find_phone old`
still returns the phone, not none. -/
theorem C6_counterexample :
    Record.edit_phone ⟨"a", ["0123456789"], none⟩ "0123456789" "0123456789" =
      .ok ⟨"a", ["0123456789"], none⟩ ∧
    Record.find_phone ⟨"a", ["0123456789"], none⟩ "0123456789" = some "0123456789" := by
  decide

/-- C6 as amended: for every record and every valid `new`,
`edit_phone(old, new)` succeeds and `find_phone new` returns the edited
phone — unconditionally; and provided `old ≠ new` and `old` occurred at
most once in the record's phones, `find_phone old` returns none. -/
theorem C6_edit_then_find (r : Record) (o n : String)
    (hn : phone_pattern n = true) :
    ∃ r1, Record.edit_phone r o n = .ok r1 ∧
      r1.find_phone n = some n ∧
      (o ≠ n → r.phones.count o ≤ 1 → r1.find_phone o = none) := by
  refine ⟨⟨r.name, removeFirst r.phones o ++ [n], r.birthday⟩, ?_, ?_, ?_⟩
  · unfold Record.edit_phone Record.add_phone Phone.make Record.remove_phone
    simp [hn]
  · rw [find_phone_eq]
    simp
  · intro hne hcount
    rw [find_phone_eq]
    have h1 : o ∉ removeFirst r.phones o := not_mem_removeFirst _ _ hcount
    simp [h1, hne]

/-- C6 witness: a concrete record, distinct valid numbers. -/
theorem C6_witness :
    ∃ r1, Record.edit_phone ⟨"a", ["0123456789"], none⟩ "0123456789" "9876543210" = .ok r1 ∧
      r1.find_phone "9876543210" = some "9876543210" ∧
      ("0123456789" ≠ "9876543210" →
        (Record.mk "a" ["0123456789"] none).phones.count "0123456789" ≤ 1 →
        r1.find_phone "0123456789" = none) :=
  C6_edit_then_find ⟨"a", ["0123456789"], none⟩ "0123456789" "9876543210" (by decide)

/-! ### C8, C9: `add_record`, `find`, `delete` -/

/-- Lookup after dict assignment at the same key yields the assigned
value. -/
theorem dictGet_insert (l : List (String × Record)) (k : String) (v : Record) :
    dictGet (dictInsert l k v) k = some v := by
  induction l with
  | nil => simp [dictInsert, dictGet]
  | cons p t ih =>
      obtain ⟨k1, v1⟩ := p
      by_cases h : k1 = k
      · simp [dictInsert, dictGet, h]
      · simp [dictInsert, dictGet, h, ih]

/-- Dict assignment leaves exactly one entry under the assigned key,
provided the key was not duplicated before (Python dicts never duplicate
keys). -/
theorem countP_insert (l : List (String × Record)) (k : String) (v : Record)
    (h : l.countP (fun p => p.1 = k) ≤ 1) :
    (dictInsert l k v).countP (fun p => p.1 = k) = 1 := by
  induction l with
  | nil => simp [dictInsert]
  | cons p t ih =>
      obtain ⟨k1, v1⟩ := p
      by_cases hk : k1 = k
      · subst hk
        simp [dictInsert, List.countP_cons] at h ⊢
        exact h
      · simp [dictInsert, hk, List.countP_cons] at h ⊢
        exact ih h

/-- C8: re-adding a record under an existing name overwrites — after the
two `add_record` calls exactly one entry carries that name and `find`
returns the second record. -/
theorem C8_add_record_last_write_wins (bk : AddressBook) (r1 r2 : Record)
    (hname : r1.name = r2.name)
    (hkeys : bk.data.countP (fun p => p.1 = r2.name) ≤ 1) :
    ((bk.add_record r1).add_record r2).data.countP (fun p => p.1 = r2.name) = 1 ∧
    ((bk.add_record r1).add_record r2).find r2.name = some r2 := by
  constructor
  · show (dictInsert (dictInsert bk.data r1.name r1) r2.name r2).countP
        (fun p => p.1 = r2.name) = 1
    rw [hname]
    have h1 := countP_insert bk.data r2.name r1 hkeys
    exact countP_insert _ _ _ (by omega)
  · exact dictGet_insert _ _ _

/-- C8 witness: double add of the same name into an empty book. -/
theorem C8_witness :
    ((AddressBook.mk []).add_record ⟨"b", [], none⟩ |>.add_record
        ⟨"b", ["1112223334"], none⟩).data.countP
      (fun p => p.1 = (Record.mk "b" ["1112223334"] none).name) = 1 ∧
    ((AddressBook.mk []).add_record ⟨"b", [], none⟩ |>.add_record
        ⟨"b", ["1112223334"], none⟩).find (Record.mk "b" ["1112223334"] none).name =
      some ⟨"b", ["1112223334"], none⟩ :=
  C8_add_record_last_write_wins ⟨[]⟩ ⟨"b", [], none⟩ ⟨"b", ["1112223334"], none⟩
    rfl (by decide)

/-- A missed lookup means no entry carries the key. -/
theorem dictGet_none_any (l : List (String × Record)) (n : String)
    (h : dictGet l n = none) : l.any (fun p => p.1 = n) = false := by
  induction l with
  | nil => rfl
  | cons p t ih =>
      obtain ⟨k, v⟩ := p
      by_cases hk : k = n
      · simp [dictGet, hk] at h
      · simp [dictGet, hk] at h
        simp [hk, ih h]

/-- C9: deleting a name that is not a key (`find` misses) is a no-op: no
error is raised and the whole book is unchanged. -/
theorem C9_delete_missing_noop (bk : AddressBook) (n : String)
    (h : bk.find n = none) : bk.delete n = bk := by
  have ha : bk.data.any (fun p => p.1 = n) = false := dictGet_none_any bk.data n h
  unfold AddressBook.delete
  simp [ha]

/-- C9 witness: deleting an absent name from a one-entry book. -/
theorem C9_witness :
    AddressBook.delete ⟨[("a", ⟨"a", [], none⟩)]⟩ "b" = ⟨[("a", ⟨"a", [], none⟩)]⟩ :=
  C9_delete_missing_noop ⟨[("a", ⟨"a", [], none⟩)]⟩ "b" (by decide)

/-! ### C10: `get_birthdays_per_week` is read-only -/

/-- One loop iteration returns its record unmodified: the body only reads
the record's fields. -/
theorem gbwStep_preserves (today : Date) (r r1 : Record)
    (m m1 : List (String × List String))
    (h : gbwStep today r m = .ok (r1, m1)) : r1 = r := by
  unfold gbwStep at h
  split at h
  · cases h; rfl
  · split at h
    · cases h
    · split at h <;> (cases h; rfl)

/-- The loop returns the book's entry list unmodified. -/
theorem gbwLoop_preserves (today : Date) (l : List (String × Record))
    (m : List (String × List String)) (l1 : List (String × Record))
    (m1 : List (String × List String))
    (h : gbwLoop today l m = .ok (l1, m1)) : l1 = l := by
  induction l generalizing m l1 m1 with
  | nil =>
      unfold gbwLoop at h
      cases h
      rfl
  | cons p t ih =>
      obtain ⟨k, r⟩ := p
      unfold gbwLoop at h
      split at h
      · cases h
      · split at h
        · cases h
        · rename_i x1 r1 m2 hs x2 t1 m3 hl
          cases h
          rw [gbwStep_preserves today r r1 m m2 hs, ih m2 t1 _ hl]

/-- C10: the birthday query is a pure read — the post-call book equals
the pre-call book, entry by entry, record by record. -/
theorem C10_get_birthdays_pure (bk : AddressBook) (today : Date) :
    (bk.get_birthdays_per_week today).1 = bk := by
  unfold AddressBook.get_birthdays_per_week
  cases h : gbwLoop today bk.data [] with
  | error e => rfl
  | ok q =>
      obtain ⟨data1, m⟩ := q
      exact congrArg AddressBook.mk (gbwLoop_preserves today bk.data [] data1 m h)

/-! ### C1, C2, C3: the birthday window -/

/-- The appended name is present under its label. -/
theorem mem_lookupEntry_addEntry_self (m : List (String × List String)) (k v : String) :
    v ∈ lookupEntry (addEntry m k v) k := by
  induction m with
  | nil => simp [addEntry, lookupEntry]
  | cons p t ih =>
      obtain ⟨k1, vs⟩ := p
      by_cases h : k1 = k
      · simp [addEntry, lookupEntry, h]
      · simp [addEntry, lookupEntry, h, ih]

/-- Appending never removes an already-present name from any label. -/
theorem mem_lookupEntry_addEntry_mono (m : List (String × List String))
    (k k1 v x : String) (h : x ∈ lookupEntry m k) :
    x ∈ lookupEntry (addEntry m k1 v) k := by
  induction m with
  | nil => simp [lookupEntry] at h
  | cons p t ih =>
      obtain ⟨k2, vs⟩ := p
      by_cases h2 : k2 = k1
      · by_cases h3 : k2 = k <;> simp_all [addEntry, lookupEntry]
      · by_cases h3 : k2 = k <;> simp_all [addEntry, lookupEntry]

/-- A qualifying record's step appends its name under its label. -/
theorem gbwStep_eq_of_window (today : Date) (r : Record) (b d : Date) (δ : Int)
    (m : List (String × List String)) (hb : r.birthday = some b)
    (hocc : occurrence today b = .ok (d, δ)) (h0 : 0 ≤ δ) (h7 : δ < 7) :
    gbwStep today r m = .ok (r, addEntry m (dayLabel d) r.name) := by
  unfold gbwStep
  rw [hb]
  simp [hocc, h0, h7]

/-- One loop iteration never removes a name from any label of the
accumulator. -/
theorem gbwStep_mono (today : Date) (r r1 : Record)
    (m m1 : List (String × List String)) (k x : String)
    (hs : gbwStep today r m = .ok (r1, m1)) (h : x ∈ lookupEntry m k) :
    x ∈ lookupEntry m1 k := by
  unfold gbwStep at hs
  split at hs
  · cases hs; exact h
  · split at hs
    · cases hs
    · split at hs
      · cases hs; exact mem_lookupEntry_addEntry_mono _ _ _ _ _ h
      · cases hs; exact h

/-- The loop never removes a name from any label of the accumulator. -/
theorem gbwLoop_mono (today : Date) (l : List (String × Record))
    (m : List (String × List String)) (l1 : List (String × Record))
    (m1 : List (String × List String)) (k x : String)
    (hloop : gbwLoop today l m = .ok (l1, m1)) (h : x ∈ lookupEntry m k) :
    x ∈ lookupEntry m1 k := by
  induction l generalizing m l1 m1 with
  | nil => unfold gbwLoop at hloop; cases hloop; exact h
  | cons p t ih =>
      obtain ⟨k0, r0⟩ := p
      unfold gbwLoop at hloop
      split at hloop
      · cases hloop
      · split at hloop
        · cases hloop
        · rename_i x1 r1 m2 hs x2 t1 m3 hl
          cases hloop
          exact ih m2 t1 _ hl (gbwStep_mono today r0 r1 m m2 k x hs h)

/-- Every record of the traversed list whose occurrence falls in the
7-day window contributes its name under its label, provided the whole
loop completes. -/
theorem gbwLoop_includes (today : Date) (l : List (String × Record))
    (m0 : List (String × List String)) (l1 : List (String × Record))
    (m1 : List (String × List String)) (k : String) (r : Record)
    (b d : Date) (δ : Int)
    (hmem : (k, r) ∈ l) (hb : r.birthday = some b)
    (hocc : occurrence today b = .ok (d, δ)) (h0 : 0 ≤ δ) (h7 : δ < 7)
    (hloop : gbwLoop today l m0 = .ok (l1, m1)) :
    r.name ∈ lookupEntry m1 (dayLabel d) := by
  induction l generalizing m0 l1 m1 with
  | nil => simp at hmem
  | cons p t ih =>
      obtain ⟨k0, r0⟩ := p
      unfold gbwLoop at hloop
      split at hloop
      · cases hloop
      · split at hloop
        · cases hloop
        · rename_i x1 r1 m2 hs x2 t1 m3 hl
          cases hloop
          rcases List.mem_cons.mp hmem with heq | hmem2
          · cases heq
            have hs2 := (gbwStep_eq_of_window today r b d δ m0 hb hocc h0 h7).symm.trans hs
            cases hs2
            exact gbwLoop_mono today t _ t1 _ (dayLabel d) r.name hl
              (mem_lookupEntry_addEntry_self m0 (dayLabel d) r.name)
          · exact ih m2 t1 _ hmem2 hl

/-- C1: every record whose (possibly year-adjusted) birthday occurrence
lies 0–6 days from the reference date appears, when the query completes,
under the weekday label of that occurrence — where a Saturday or Sunday
occurrence carries the label "Monday". -/
theorem C1_upcoming_included (bk : AddressBook) (today : Date) (k : String)
    (r : Record) (b d : Date) (δ : Int) (m : List (String × List String))
    (hmem : (k, r) ∈ bk.data) (hb : r.birthday = some b)
    (hocc : occurrence today b = .ok (d, δ)) (h0 : 0 ≤ δ) (h7 : δ < 7)
    (hok : (bk.get_birthdays_per_week today).2 = .ok m) :
    r.name ∈ lookupEntry m (dayLabel d) := by
  unfold AddressBook.get_birthdays_per_week at hok
  split at hok
  · rename_i data1 m1 hl
    cases hok
    exact gbwLoop_includes today bk.data [] data1 _ k r b d δ hmem hb hocc h0 h7 hl
  · cases hok

/-- C1 witness: reference date 2024-06-10 (a Monday), birthday 06-15
(Saturday 2024-06-15, delta 5): the result maps "Monday" to the contact's
name. -/
theorem C1_witness :
    dayLabel ⟨2024, 6, 15⟩ = "Monday" ∧
    "john" ∈ lookupEntry [("Monday", ["john"])] (dayLabel ⟨2024, 6, 15⟩) :=
  ⟨by decide,
   C1_upcoming_included ⟨[("john", ⟨"john", [], some ⟨1985, 6, 15⟩⟩)]⟩ ⟨2024, 6, 10⟩
     "john" ⟨"john", [], some ⟨1985, 6, 15⟩⟩ ⟨1985, 6, 15⟩ ⟨2024, 6, 15⟩ 5
     [("Monday", ["john"])]
     (by decide) (by decide) (by decide) (by decide) (by decide) (by decide)⟩

/-- `replace_year` only ever returns the same month/day with the
requested year. -/
theorem replace_year_ok (b : Date) (y : Nat) (d : Date)
    (h : replace_year b y = .ok d) : d = ⟨y, b.month, b.day⟩ := by
  unfold replace_year at h
  split at h
  · cases h
  · split at h
    · cases h; rfl
    · cases h

/-- C2: when the reference-year occurrence of the birthday lies strictly
in the past, the computation is redone with the next year: the result is
exactly the year+1 re-validation of that date, and any returned
occurrence carries year `today.year + 1` with the birthday's month and
day and the day distance from the reference date. -/
theorem C2_rollover (today b d1 : Date)
    (h1 : replace_year b today.year = .ok d1)
    (h2 : dateDiff d1 today < 0) :
    occurrence today b =
      (match replace_year d1 (today.year + 1) with
       | .error e => .error e
       | .ok d2 => .ok (d2, dateDiff d2 today)) ∧
    ∀ d2 δ2, occurrence today b = .ok (d2, δ2) →
      d2 = ⟨today.year + 1, b.month, b.day⟩ ∧ δ2 = dateDiff d2 today := by
  have hocc : occurrence today b =
      (match replace_year d1 (today.year + 1) with
       | .error e => .error e
       | .ok d2 => .ok (d2, dateDiff d2 today)) := by
    unfold occurrence
    rw [h1]
    simp [h2]
  refine ⟨hocc, ?_⟩
  intro d2 δ2 h
  rw [hocc] at h
  cases hr : replace_year d1 (today.year + 1) with
  | error e => rw [hr] at h; cases h
  | ok d3 =>
      rw [hr] at h
      cases h
      have hd1 := replace_year_ok b today.year d1 h1
      have hd3 := replace_year_ok d1 (today.year + 1) _ hr
      subst hd1
      exact ⟨hd3, rfl⟩

/-- C2 witness: reference date 2024-12-31, birthday 01-02 — the rollover
branch fires, the computed occurrence is 2025-01-02 with delta 2, and the
contact is reported (2025-01-02 is a Thursday). -/
theorem C2_witness :
    occurrence ⟨2024, 12, 31⟩ ⟨1990, 1, 2⟩ = .ok (⟨2025, 1, 2⟩, 2) ∧
    (AddressBook.get_birthdays_per_week
        ⟨[("ann", ⟨"ann", [], some ⟨1990, 1, 2⟩⟩)]⟩ ⟨2024, 12, 31⟩).2 =
      .ok [("Thursday", ["ann"])] ∧
    (∀ d2 δ2, occurrence ⟨2024, 12, 31⟩ ⟨1990, 1, 2⟩ = .ok (d2, δ2) →
      d2 = ⟨2025, 1, 2⟩ ∧ δ2 = dateDiff d2 ⟨2024, 12, 31⟩) :=
  ⟨by decide, by decide,
   (C2_rollover ⟨2024, 12, 31⟩ ⟨1990, 1, 2⟩ ⟨2024, 1, 2⟩ (by decide) (by decide)).2⟩

/-- C3: the code crashes on a February 29 birthday when the reference
year is not a leap year — `date.replace(year=...)` raises
`ValueError("day is out of range for month")`, which propagates out of
`get_birthdays_per_week` instead of a mapping being returned. -/
theorem C3_feb29_crash :
    (AddressBook.get_birthdays_per_week
        ⟨[("leap", ⟨"leap", [], some ⟨1996, 2, 29⟩⟩)]⟩ ⟨2025, 6, 10⟩).2 =
      .error "day is out of range for month" := by
  decide

/-! ### C7: the dispatch boundary -/

/-- Every decorated handler's branch of the dispatch chain yields a
printed string (or the exit), never an escaped exception: the
`input_error` wrapper catches and stringifies whatever the handlers
raise.  Only the `birthdays` branch is outside this guarantee. -/
theorem dispatch_no_crash_of_ne (cmd : String) (args : List String)
    (bk : AddressBook) (today : Date) (h : cmd ≠ "birthdays") :
    isCrash (dispatch cmd args bk today).1 = false := by
  unfold dispatch
  split_ifs with h1 h2 h3 h4 h5 h6 h7 h8
  all_goals rfl

/-- Closed instance of the preceding guarantee, at the `add` command. -/
theorem dispatch_no_crash_witness :
    isCrash (dispatch "add" ["ann", "badphone"] ⟨[]⟩ ⟨2025, 6, 10⟩).1 = false :=
  dispatch_no_crash_of_ne "add" ["ann", "badphone"] ⟨[]⟩ ⟨2025, 6, 10⟩ (by decide)

/-- C7: the `birthdays` command calls `get_birthdays_per_week` directly
in `main`, outside any `input_error` wrapper and outside any `try` — so
the `ValueError` raised for a February 29 birthday in a non-leap
reference year escapes the read loop instead of being converted to an
"Error: "-prefixed string. -/
theorem C7_birthdays_crash :
    (dispatch "birthdays" []
        ⟨[("leap", ⟨"leap", [], some ⟨1996, 2, 29⟩⟩)]⟩ ⟨2025, 6, 10⟩).1 =
      .crashed "day is out of range for month" := by
  decide

end ContactBook
